import Mathlib

/-!
Verification of the messenger-interface concurrency layer of the chatsky
repository, shallowly embedded from
`src/chatsky/messengers/common/interface.py`.

The embedding models:
* the base `MessengerInterface` lifecycle (`__init__`, `shutdown`,
  `run_in_foreground`, `cleanup`),
* the `PollingMessengerInterface` polling loop, polling job, worker loop and
  worker job, and
* `CallbackMessengerInterface.__init__`.

Python object attributes that the lifecycle methods touch are modelled
explicitly (an attribute can be absent, which makes attribute access raise
`AttributeError`), and the methods are modelled as functions from states to
states plus an optional raised exception and an ordered event trace.
-/

namespace Chatsky

/-- Conversation (context) identifiers are opaque hashables; modelled as `Nat`. -/
abbrev CtxId := Nat

/-- Messages are opaque payloads; modelled as `Nat`. -/
abbrev Msg := Nat

/-- An entry of the request queue: `Option.none` is the sentinel `None`,
`some (ctx_id, update)` is a real request pair. -/
abbrev QItem := Option (CtxId × Msg)

/-- Exceptions that the modelled code can raise. -/
inductive PyError
  | attributeError
  | cancelledError
  | valueError
  | timeoutError
  | otherError
  deriving DecidableEq

/-- Status of an asyncio task. -/
inductive TaskStatus
  | running
  | finished
  | cancelled
  deriving DecidableEq

/-- Python values stored in the attributes the lifecycle methods use. -/
inductive PyVal
  | none
  | bool (b : Bool)
  | task (st : TaskStatus)
  deriving DecidableEq

/-- The attribute state of a messenger-interface object, restricted to the
attributes the modelled methods read or write.  A field equal to
`Option.none` means the attribute has never been assigned, so reading it
raises `AttributeError`. -/
structure PyObj where
  task : Option PyVal
  pipeline : Option PyVal
  running_in_foreground : Option PyVal
  running : Option PyVal
  finished_working : Option PyVal
  pipeline_runner : Option PyVal
  deriving DecidableEq

/-- A freshly allocated object, before any `__init__` body runs: no
attributes exist yet. -/
def PyObj.empty : PyObj :=
  ⟨Option.none, Option.none, Option.none, Option.none, Option.none, Option.none⟩

/-- `MessengerInterface.__init__` (interface.py lines 37-42): sets
`task = None`, `pipeline = None`, `running_in_foreground = False`,
`running = True`, `finished_working = False`. -/
def MessengerInterface_init (self : PyObj) : PyObj :=
  { self with
    task := some PyVal.none
    pipeline := some PyVal.none
    running_in_foreground := some (PyVal.bool false)
    running := some (PyVal.bool true)
    finished_working := some (PyVal.bool false) }

/-- `CallbackMessengerInterface.__init__` (interface.py lines 338-339): sets
only `_pipeline_runner = None` and does not call the base `__init__`. -/
def CallbackMessengerInterface_init (self : PyObj) : PyObj :=
  { self with pipeline_runner := some PyVal.none }

/-- `task.cancel()`: a running task becomes cancelled; a task that already
completed is unaffected. -/
def cancelTask (st : TaskStatus) : TaskStatus :=
  if st = TaskStatus.running then TaskStatus.cancelled else st

/-- `MessengerInterface.shutdown` (interface.py lines 117-134):
set `self.running = False`; call `self.task.cancel()` (an absent `task`
attribute or a `None` value raises `AttributeError`); `await self.task`
(a cancelled task raises `CancelledError`, a finished one returns); on
`CancelledError`, re-raise exactly when `self.finished_working` is falsy.
Returns the updated attribute state and the exception that propagates, if
any. -/
def shutdown (self : PyObj) : PyObj × Option PyError :=
  let s1 := { self with running := some (PyVal.bool false) }
  match s1.task with
  | Option.none => (s1, some PyError.attributeError)
  | some PyVal.none => (s1, some PyError.attributeError)
  | some (PyVal.bool _) => (s1, some PyError.attributeError)
  | some (PyVal.task st) =>
    let st2 := cancelTask st
    let s2 := { s1 with task := some (PyVal.task st2) }
    match st2 with
    | TaskStatus.finished => (s2, Option.none)
    | _ =>
      match s2.finished_working with
      | some (PyVal.bool true) => (s2, Option.none)
      | some (PyVal.bool false) => (s2, some PyError.cancelledError)
      | _ => (s2, some PyError.attributeError)

/-- Outcome of awaiting the background connect task inside
`run_in_foreground`. -/
inductive TaskOutcome
  | normal
  | cancelled
  | error
  deriving DecidableEq

/-- Result of the tail of `run_in_foreground`. -/
structure ForegroundResult where
  cleanupCalled : Bool
  finished_working : Bool
  raised : Option PyError
  deriving DecidableEq

/-- The tail of `MessengerInterface.run_in_foreground` (interface.py lines
104-115): `try: await self.task` with `except asyncio.CancelledError`
swallowing cancellation, `finally: await self.cleanup()`, then
`self.finished_working = True`.  `outcome` is the result of awaiting the
task; `cleanupError` is the exception raised by `self.cleanup()`, if any
(an exception from the `finally` block supersedes the pending one). -/
def run_in_foreground_after_await (outcome : TaskOutcome) (cleanupError : Option PyError) :
    ForegroundResult :=
  let pending : Option PyError :=
    match outcome with
    | TaskOutcome.normal => Option.none
    | TaskOutcome.cancelled => Option.none
    | TaskOutcome.error => some PyError.otherError
  let raised : Option PyError :=
    match cleanupError with
    | some e => some e
    | Option.none => pending
  match raised with
  | some e => ⟨true, false, some e⟩
  | Option.none => ⟨true, true, Option.none⟩

/-- `MessengerInterface.cleanup` (interface.py lines 62-69): `pass`; never
raises. -/
def MessengerInterface_cleanup : Option PyError := Option.none

/-- `asyncio.wait` raises `ValueError` when the passed collection of tasks
is empty, and otherwise waits for them and returns. -/
def asyncio_wait (tasks : List TaskStatus) : Option PyError :=
  if tasks.isEmpty then some PyError.valueError else Option.none

/-- `PollingMessengerInterface.cleanup` (interface.py lines 314-318):
`await super().cleanup()` then `await asyncio.wait(self._worker_tasks)`. -/
def PollingMessengerInterface_cleanup (worker_tasks : List TaskStatus) : Option PyError :=
  match MessengerInterface_cleanup with
  | some e => some e
  | Option.none => asyncio_wait worker_tasks

/-- `PollingMessengerInterface.__init__` (interface.py lines 194-198)
initialises `_worker_tasks` to the empty list. -/
def PollingMessengerInterface_init_worker_tasks : List TaskStatus := []

/-- `PollingMessengerInterface.connect` (interface.py lines 294-308) spawns
`number_of_workers` worker tasks and appends them to `_worker_tasks`. -/
def connect_worker_tasks (number_of_workers : Nat) (tasks : List TaskStatus) : List TaskStatus :=
  tasks ++ List.replicate number_of_workers TaskStatus.running

/-! ### Theorems: base lifecycle -/

/-- Claim C3: `shutdown()` sets the running flag to false and cancels the
background connect task; the resulting cancellation is swallowed exactly
when `finished_working` is already true, otherwise it is re-raised; and when
the task had already finished naturally, `shutdown()` raises nothing. -/
theorem claim_C3_shutdown_cancellation :
    ∀ (st : TaskStatus) (fin : Bool),
      (shutdown { MessengerInterface_init PyObj.empty with
          task := some (PyVal.task st),
          finished_working := some (PyVal.bool fin) }).1.running
        = some (PyVal.bool false)
      ∧ (shutdown { MessengerInterface_init PyObj.empty with
          task := some (PyVal.task st),
          finished_working := some (PyVal.bool fin) }).1.task
        = some (PyVal.task (cancelTask st))
      ∧ ((shutdown { MessengerInterface_init PyObj.empty with
          task := some (PyVal.task st),
          finished_working := some (PyVal.bool fin) }).2 = Option.none
          ↔ (st = TaskStatus.finished ∨ fin = true)) := by
  intro st fin
  cases st <;> cases fin <;> simp [shutdown, cancelTask, MessengerInterface_init]

/-- Claim C5: once the awaited connect task completes — normally or by
cancellation — `run_in_foreground` calls `cleanup()` and sets
`finished_working` to true; moreover `cleanup()` is called on every path. -/
theorem claim_C5_foreground_cleanup :
    run_in_foreground_after_await TaskOutcome.normal Option.none
      = ⟨true, true, Option.none⟩
    ∧ run_in_foreground_after_await TaskOutcome.cancelled Option.none
      = ⟨true, true, Option.none⟩
    ∧ ∀ (o : TaskOutcome) (e : Option PyError),
        (run_in_foreground_after_await o e).cleanupCalled = true := by
  refine ⟨rfl, rfl, ?_⟩
  intro o e
  cases o <;> cases e <;> rfl

/-- Claim C9: `CallbackMessengerInterface.__init__` does not initialise the
base-class lifecycle attributes, so after construction `task`, `pipeline`,
`running`, `finished_working` and `running_in_foreground` are all absent and
`shutdown()` raises `AttributeError`. -/
theorem claim_C9_callback_init_missing_attrs :
    (CallbackMessengerInterface_init PyObj.empty).task = Option.none
    ∧ (CallbackMessengerInterface_init PyObj.empty).pipeline = Option.none
    ∧ (CallbackMessengerInterface_init PyObj.empty).running = Option.none
    ∧ (CallbackMessengerInterface_init PyObj.empty).finished_working = Option.none
    ∧ (CallbackMessengerInterface_init PyObj.empty).running_in_foreground = Option.none
    ∧ (shutdown (CallbackMessengerInterface_init PyObj.empty)).2
        = some PyError.attributeError := by
  decide

/-- Claim C10: calling `shutdown()` before any background task was started
finds `task = None` and unconditionally calls `cancel()` on it, which raises
`AttributeError` instead of stopping cleanly. -/
theorem claim_C10_shutdown_before_connect :
    (MessengerInterface_init PyObj.empty).task = some PyVal.none
    ∧ (shutdown (MessengerInterface_init PyObj.empty)).2
        = some PyError.attributeError := by
  decide

/-- Corrected claim C6, counterexample to the original: calling `cleanup()`
on a polling interface before `connect` has run (worker-task list still
empty) raises `ValueError`, so cleanup is not safe in every lifecycle
state. -/
theorem claim_C6_cex :
    PollingMessengerInterface_cleanup PollingMessengerInterface_init_worker_tasks
      = some PyError.valueError := by
  decide

/-- Claim C6 (amended): the base `cleanup()` never raises, and
`PollingMessengerInterface.cleanup()` raises exactly when the worker-task
list is empty — in particular it is safe, arbitrarily often, once `connect`
has spawned at least one worker. -/
theorem claim_C6_cleanup_raises_iff_no_workers :
    MessengerInterface_cleanup = Option.none
    ∧ (∀ ts : List TaskStatus,
        (PollingMessengerInterface_cleanup ts = Option.none ↔ ts ≠ []))
    ∧ ∀ (w : Nat) (ts : List TaskStatus),
        PollingMessengerInterface_cleanup (connect_worker_tasks (w + 1) ts)
          = Option.none := by
  refine ⟨rfl, ?_, ?_⟩
  · intro ts
    cases ts <;> simp [PollingMessengerInterface_cleanup, MessengerInterface_cleanup, asyncio_wait]
  · intro w ts
    simp [PollingMessengerInterface_cleanup, MessengerInterface_cleanup, asyncio_wait,
      connect_worker_tasks, List.replicate_succ]

/-! ### The polling loop and polling job -/

/-- Result of one call to `_get_updates()` under its `poll_timeout` bound:
the wait timed out, the call returned `None`, or it returned a list of
`(ctx_id, update)` pairs. -/
inductive FetchResult
  | timeout
  | noUpdates
  | updates (us : List (CtxId × Msg))
  deriving DecidableEq

/-- Observable actions of the modelled methods, in program order. -/
inductive Event
  | enqueue (item : QItem)
  | dequeue (item : QItem)
  | setRunning (b : Bool)
  | logDebug (s : String)
  | logInfo (s : String)
  | lockAcquire (c : CtxId)
  | lockRelease (c : CtxId)
  | runPipeline (c : CtxId) (m : Msg)
  | respond (c : CtxId) (r : Msg)
  deriving DecidableEq

/-- Number of sentinel (`None`) enqueues in a trace. -/
def sentinelCount : List Event → Nat
  | [] => 0
  | Event.enqueue Option.none :: rest => sentinelCount rest + 1
  | _ :: rest => sentinelCount rest

/-- Number of pipeline-runner invocations in a trace. -/
def runPipelineCount : List Event → Nat
  | [] => 0
  | Event.runPipeline _ _ :: rest => runPipelineCount rest + 1
  | _ :: rest => runPipelineCount rest

/-- Number of queue dequeues in a trace. -/
def dequeueCount : List Event → Nat
  | [] => 0
  | Event.dequeue _ :: rest => dequeueCount rest + 1
  | _ :: rest => dequeueCount rest

/-- The `for update in received_updates: await self.request_queue.put(update)`
loop of `_polling_job`: puts each pair at the back of the FIFO queue, in
list order. -/
def enqueue_all (us : List (CtxId × Msg)) (queue : List QItem) :
    List QItem × List Event :=
  match us with
  | [] => (queue, [])
  | u :: rest =>
    let q1 := queue ++ [some u]
    let (q2, evs) := enqueue_all rest q1
    (q2, Event.enqueue (some u) :: evs)

/-- Result of one `_polling_job` call: the queue afterwards, the emitted
events, and whether an exception propagated out of the job. -/
structure JobResult where
  queue : List QItem
  events : List Event
  raised : Bool
  deriving DecidableEq

/-- `PollingMessengerInterface._polling_job` (interface.py lines 261-268):
fetch updates bounded by `poll_timeout`; on timeout catch the exception and
log at debug level; when the result is not `None`, enqueue every returned
pair in order. -/
def polling_job (fetched : FetchResult) (queue : List QItem) : JobResult :=
  match fetched with
  | FetchResult.timeout =>
    ⟨queue, [Event.logDebug "polling_job failed - timed out"], false⟩
  | FetchResult.noUpdates => ⟨queue, [], false⟩
  | FetchResult.updates us =>
    let (q2, evs) := enqueue_all us queue
    ⟨q2, evs, false⟩

/-- The `finally` block of `_polling_loop` (interface.py lines 280-292), in
statement order: set `self.running = False`, log which exit condition held
(calling `loop()` once more), then `put_nowait(None)` once per worker. -/
def polling_loop_exit_events (loopValAtExit : Bool) (number_of_workers : Nat) :
    List Event :=
  Event.setRunning false ::
    (if loopValAtExit = false then
      Event.logInfo "polling_loop stopped working - the loop() condition was false"
    else
      Event.logInfo "polling_loop stopped working - the stop signal was received.") ::
    List.replicate number_of_workers (Event.enqueue Option.none)

/-- Result of running `_polling_loop`. -/
structure LoopResult where
  exited : Bool
  running : Bool
  queue : List QItem
  events : List Event
  iters : Nat
  deriving DecidableEq

/-- `PollingMessengerInterface._polling_loop` (interface.py lines 270-292):
`while loop() and self.running:` run one shielded `_polling_job` and sleep;
on exit run the `finally` block.  `loopFn j` is the value of the j-th call
to `loop()`; `runningF i` is the value of `self.running` read at the i-th
condition test (it can be cleared concurrently by `shutdown`); `fetch i` is
the fetch outcome of iteration i.  `fuel` bounds the modelled iterations:
with `exited = false` the fuel ran out while the loop was still going, and
no exit processing is included. -/
def polling_loop_go (loopFn : Nat → Bool) (runningF : Nat → Bool)
    (fetch : Nat → FetchResult) (number_of_workers : Nat) :
    Nat → Nat → List QItem → LoopResult
  | 0, i, queue => ⟨false, runningF i, queue, [], 0⟩
  | fuel + 1, i, queue =>
    if loopFn i && runningF i then
      let j := polling_job (fetch i) queue
      let r := polling_loop_go loopFn runningF fetch number_of_workers fuel (i + 1) j.queue
      ⟨r.exited, r.running, r.queue, j.events ++ r.events, r.iters + 1⟩
    else
      ⟨true, false, queue ++ List.replicate number_of_workers Option.none,
        polling_loop_exit_events (loopFn (i + 1)) number_of_workers, 0⟩

/-- Checks the order the original claim C4 asserts: every sentinel enqueue
occurs before the `running` flag is cleared. -/
def sentinelsAllBeforeClear (evs : List Event) : Bool :=
  sentinelCount (evs.takeWhile (fun e => !(decide (e = Event.setRunning false))))
    = sentinelCount evs

/-! ### Helper lemmas about the polling loop -/

theorem sentinelCount_append (a b : List Event) :
    sentinelCount (a ++ b) = sentinelCount a + sentinelCount b := by
  induction a with
  | nil => simp [sentinelCount]
  | cons e rest ih =>
    cases e with
    | enqueue item =>
      cases item with
      | none => simp [sentinelCount, ih]; omega
      | some p => simp [sentinelCount, ih]
    | dequeue item => simp [sentinelCount, ih]
    | setRunning b => simp [sentinelCount, ih]
    | logDebug s => simp [sentinelCount, ih]
    | logInfo s => simp [sentinelCount, ih]
    | lockAcquire c => simp [sentinelCount, ih]
    | lockRelease c => simp [sentinelCount, ih]
    | runPipeline c m => simp [sentinelCount, ih]
    | respond c r => simp [sentinelCount, ih]

theorem enqueue_all_spec (us : List (CtxId × Msg)) (queue : List QItem) :
    enqueue_all us queue
      = (queue ++ us.map some, us.map (fun u => Event.enqueue (some u))) := by
  induction us generalizing queue with
  | nil => simp [enqueue_all]
  | cons u rest ih => simp [enqueue_all, ih]

theorem polling_job_no_sentinel (f : FetchResult) (q : List QItem) :
    sentinelCount (polling_job f q).events = 0 := by
  cases f with
  | timeout => simp [polling_job, sentinelCount]
  | noUpdates => simp [polling_job, sentinelCount]
  | updates us =>
    simp only [polling_job, enqueue_all_spec]
    induction us with
    | nil => simp [sentinelCount]
    | cons u rest ih => simpa [sentinelCount] using ih

theorem polling_job_queue_extends (f : FetchResult) (q : List QItem) :
    ∃ rest, (polling_job f q).queue = q ++ rest := by
  cases f with
  | timeout => exact ⟨[], by simp [polling_job]⟩
  | noUpdates => exact ⟨[], by simp [polling_job]⟩
  | updates us => exact ⟨us.map some, by simp [polling_job, enqueue_all_spec]⟩

theorem sentinelCount_replicate (n : Nat) :
    sentinelCount (List.replicate n (Event.enqueue Option.none)) = n := by
  induction n with
  | zero => simp [sentinelCount]
  | succ n ih => simp [List.replicate_succ, sentinelCount, ih]

theorem polling_loop_exit_events_sentinels (lv : Bool) (w : Nat) :
    sentinelCount (polling_loop_exit_events lv w) = w := by
  cases lv <;> simp [polling_loop_exit_events, sentinelCount, sentinelCount_replicate]

/-- The loop's control flow (whether it exits and how many iterations it
runs) depends only on `loop()` and `self.running`, never on any fetch
outcome or on the queue contents. -/
theorem polling_loop_go_control_congr (loopFn runningF : Nat → Bool)
    (f g : Nat → FetchResult) (w fuel i : Nat) (q r : List QItem) :
    (polling_loop_go loopFn runningF f w fuel i q).exited
      = (polling_loop_go loopFn runningF g w fuel i r).exited
    ∧ (polling_loop_go loopFn runningF f w fuel i q).iters
      = (polling_loop_go loopFn runningF g w fuel i r).iters := by
  induction fuel generalizing i q r with
  | zero => simp [polling_loop_go]
  | succ fuel ih =>
    by_cases h : loopFn i && runningF i
    · simpa [polling_loop_go, h] using
        ih (i + 1) (polling_job (f i) q).queue (polling_job (g i) r).queue
    · simp [polling_loop_go, h]

/-- Requests already in the queue are never removed by the polling loop:
the final queue extends the initial one. -/
theorem polling_loop_go_queue_extends (loopFn runningF : Nat → Bool)
    (f : Nat → FetchResult) (w fuel i : Nat) (q : List QItem) :
    ∃ rest, (polling_loop_go loopFn runningF f w fuel i q).queue = q ++ rest := by
  induction fuel generalizing i q with
  | zero => exact ⟨[], by simp [polling_loop_go]⟩
  | succ fuel ih =>
    by_cases h : loopFn i && runningF i
    · obtain ⟨r1, h1⟩ := polling_job_queue_extends (f i) q
      obtain ⟨r2, h2⟩ := ih (i + 1) (polling_job (f i) q).queue
      refine ⟨r1 ++ r2, ?_⟩
      simp only [polling_loop_go, h, if_true, Bool.and_self]
      rw [h1] at h2 ⊢
      rw [h2, List.append_assoc]
    · exact ⟨List.replicate w Option.none, by simp [polling_loop_go, h]⟩

/-! ### Theorems: polling loop and polling job claims -/

/-- Corrected claim C4, counterexample to the original: on loop exit the
trace does clear `running` and does enqueue one sentinel per worker
(here 2), but the clear comes first, not after the sentinels as the claim
states. -/
theorem claim_C4_cex :
    (polling_loop_go (fun _ => false) (fun _ => true) (fun _ => FetchResult.timeout)
        2 1 0 []).exited = true
    ∧ sentinelCount (polling_loop_go (fun _ => false) (fun _ => true)
        (fun _ => FetchResult.timeout) 2 1 0 []).events = 2
    ∧ sentinelsAllBeforeClear (polling_loop_go (fun _ => false) (fun _ => true)
        (fun _ => FetchResult.timeout) 2 1 0 []).events = false := by
  decide

/-- Claim C4 (amended): whenever the polling loop exits, it first clears the
running flag and then enqueues exactly one sentinel per worker —
`number_of_workers` sentinels in total, and none anywhere else in the
trace. -/
theorem claim_C4_clear_then_sentinels (loopFn runningF : Nat → Bool)
    (fetch : Nat → FetchResult) (w fuel i : Nat) (q : List QItem)
    (h : (polling_loop_go loopFn runningF fetch w fuel i q).exited = true) :
    sentinelCount (polling_loop_go loopFn runningF fetch w fuel i q).events = w
    ∧ (polling_loop_go loopFn runningF fetch w fuel i q).running = false
    ∧ ∃ pre lv,
        (polling_loop_go loopFn runningF fetch w fuel i q).events
          = pre ++ polling_loop_exit_events lv w
        ∧ sentinelCount pre = 0 := by
  induction fuel generalizing i q with
  | zero => simp [polling_loop_go] at h
  | succ fuel ih =>
    by_cases hc : loopFn i && runningF i
    · have h2 : (polling_loop_go loopFn runningF fetch w fuel (i + 1)
          (polling_job (fetch i) q).queue).exited = true := by
        simpa [polling_loop_go, hc] using h
      obtain ⟨hcount, hrun, pre, lv, hev, hpre⟩ := ih (i + 1) (polling_job (fetch i) q).queue h2
      refine ⟨?_, ?_, (polling_job (fetch i) q).events ++ pre, lv, ?_, ?_⟩
      · simp [polling_loop_go, hc, sentinelCount_append, polling_job_no_sentinel, hcount]
      · simpa [polling_loop_go, hc] using hrun
      · simp [polling_loop_go, hc, hev]
      · simp [sentinelCount_append, polling_job_no_sentinel, hpre]
    · refine ⟨?_, ?_, [], loopFn (i + 1), ?_, ?_⟩
      · simp [polling_loop_go, hc, polling_loop_exit_events_sentinels]
      · simp [polling_loop_go, hc]
      · simp [polling_loop_go, hc]
      · simp [sentinelCount]

/-- Witness for the amended claim C4 at a concrete run: predicate false at
once, three workers, one unit of fuel. -/
theorem claim_C4_witness :
    sentinelCount (polling_loop_go (fun _ => false) (fun _ => true)
        (fun _ => FetchResult.timeout) 3 1 0 []).events = 3
    ∧ (polling_loop_go (fun _ => false) (fun _ => true)
        (fun _ => FetchResult.timeout) 3 1 0 []).running = false
    ∧ ∃ pre lv,
        (polling_loop_go (fun _ => false) (fun _ => true)
            (fun _ => FetchResult.timeout) 3 1 0 []).events
          = pre ++ polling_loop_exit_events lv 3
        ∧ sentinelCount pre = 0 :=
  claim_C4_clear_then_sentinels (fun _ => false) (fun _ => true)
    (fun _ => FetchResult.timeout) 3 1 0 [] (by decide)

/-- Claim C7: a fetch that exceeds `poll_timeout` is caught inside the
polling job and logged at debug level with the queue untouched; no polling
job ever lets an exception propagate; the loop's control flow is unaffected
by fetch outcomes (it continues with the next cycle); and no already
enqueued request is ever lost. -/
theorem claim_C7_poll_timeout_contained :
    (∀ q : List QItem,
      polling_job FetchResult.timeout q
        = ⟨q, [Event.logDebug "polling_job failed - timed out"], false⟩)
    ∧ (∀ (f : FetchResult) (q : List QItem), (polling_job f q).raised = false)
    ∧ (∀ (loopFn runningF : Nat → Bool) (f g : Nat → FetchResult)
        (w fuel i : Nat) (q r : List QItem),
        (polling_loop_go loopFn runningF f w fuel i q).exited
          = (polling_loop_go loopFn runningF g w fuel i r).exited
        ∧ (polling_loop_go loopFn runningF f w fuel i q).iters
          = (polling_loop_go loopFn runningF g w fuel i r).iters)
    ∧ ∀ (loopFn runningF : Nat → Bool) (f : Nat → FetchResult)
        (w fuel i : Nat) (q : List QItem),
        ∃ rest, (polling_loop_go loopFn runningF f w fuel i q).queue = q ++ rest := by
  refine ⟨fun q => rfl, ?_, ?_, ?_⟩
  · intro f q
    cases f <;> simp [polling_job]
  · intro loopFn runningF f g w fuel i q r
    exact polling_loop_go_control_congr loopFn runningF f g w fuel i q r
  · intro loopFn runningF f w fuel i q
    exact polling_loop_go_queue_extends loopFn runningF f w fuel i q

/-! ### The worker loop and worker job -/

/-- Outcome of one pipeline run under `worker_timeout`: the context's last
response, or a timeout of the bounded wait. -/
inductive RunOutcome
  | ok (lastResponse : Msg)
  | timedOut
  deriving DecidableEq

/-- The body of `PollingMessengerInterface._worker_job` (interface.py lines
214-236), as it executes when awaited with `request` at the head of the
queue: `request = await self.request_queue.get()`; for the sentinel return
`True`; otherwise acquire `self.pipeline.context_lock[ctx_id]`, run
`_process_request` (which invokes `pipeline._run_pipeline` and then
`_respond(ctx_id, context.last_response)`) bounded by `worker_timeout`, and
return `False`.  A timeout raises out of the `async with`, which releases
the lock, so the second component is `Option.none` when `TimeoutError`
propagates. -/
def worker_job (request : QItem) (run : CtxId → Msg → RunOutcome) :
    List Event × Option Bool :=
  match request with
  | Option.none => ([Event.dequeue Option.none], some true)
  | some (c, m) =>
    match run c m with
    | RunOutcome.ok resp =>
      ([Event.dequeue (some (c, m)), Event.lockAcquire c, Event.runPipeline c m,
        Event.respond c resp, Event.lockRelease c], some false)
    | RunOutcome.timedOut =>
      ([Event.dequeue (some (c, m)), Event.lockAcquire c, Event.runPipeline c m,
        Event.lockRelease c], Option.none)

/-- A Python value in a boolean position: either a genuine `bool`, or the
coroutine object produced by calling an `async def` function without
awaiting it (always truthy). -/
inductive PyTruthy
  | coroutineObject
  | pyBool (b : Bool)
  deriving DecidableEq

/-- Python truthiness of such a value. -/
def truthiness : PyTruthy → Bool
  | PyTruthy.coroutineObject => true
  | PyTruthy.pyBool b => b

/-- The value bound by the assignment
`no_more_jobs = self._worker_job(worker_timeout=worker_timeout)` in
`_worker` (interface.py line 243): the call is written without `await`, so
evaluating it only creates and returns the coroutine object — the body of
`_worker_job` does not run and the queue is not touched. -/
def worker_job_unawaited_call : PyTruthy := PyTruthy.coroutineObject

/-- Result of running one worker. -/
structure WorkerResult where
  exited : Bool
  queue : List QItem
  events : List Event
  deriving DecidableEq

/-- `PollingMessengerInterface._worker` (interface.py lines 240-250):
`while self.running or not self.request_queue.empty():` bind
`no_more_jobs` to the unawaited `_worker_job` call, and `break` with an
info log when it is truthy.  Since a coroutine object is always truthy the
`break` is taken on the first iteration; the else branch transcribes what
the loop would do were the bound value falsy. -/
def worker_go (fuel : Nat) (running : Bool) (queue : List QItem) : WorkerResult :=
  match fuel with
  | 0 => ⟨false, queue, []⟩
  | fuel + 1 =>
    if running || !queue.isEmpty then
      if truthiness worker_job_unawaited_call then
        ⟨true, queue,
          [Event.logInfo "Worker finished working - all remaining requests have been processed."]⟩
      else
        worker_go fuel running queue
    else
      ⟨true, queue, []⟩

/-- `PollingMessengerInterface.connect` (interface.py lines 294-308) spawns
`number_of_workers` workers over the shared queue; each drains what the
previous ones left.  Returns the concatenated event trace and the final
queue. -/
def workers_go (number_of_workers fuel : Nat) (running : Bool) (queue : List QItem) :
    List Event × List QItem :=
  match number_of_workers with
  | 0 => ([], queue)
  | n + 1 =>
    let r := worker_go fuel running queue
    let (evs, q2) := workers_go n fuel running r.queue
    (r.events ++ evs, q2)

/-! ### Theorems: worker claims -/

/-- Claim C1: two deliveries for conversation 0 submitted through the
polling interface with two workers and the interface running yield zero
pipeline-runner invocations — not the two the claim requires — and both
requests are left in the queue: `_worker` never awaits `_worker_job`, so no
worker ever dequeues, locks or runs anything. -/
theorem claim_C1_workers_never_invoke_runner :
    runPipelineCount (workers_go 2 10 true [some (0, 1), some (0, 2)]).1 = 0
    ∧ (workers_go 2 10 true [some (0, 1), some (0, 2)]).2
        = [some (0, 1), some (0, 2)]
    ∧ ¬ runPipelineCount (workers_go 2 10 true [some (0, 1), some (0, 2)]).1 = 2 := by
  decide

/-- Claim C2: the per-item behavior the claim describes is exactly the body
of `_worker_job` — the sentinel yields the exit signal `True`, a real pair
is processed under the conversation lock with `respond` receiving the run's
last response — but the worker loop never executes that body: on a queue
holding one real item the worker dequeues nothing, leaves the item in the
queue, and exits its loop on the first iteration. -/
theorem claim_C2_worker_job_never_executed :
    (∀ run : CtxId → Msg → RunOutcome,
      worker_job Option.none run = ([Event.dequeue Option.none], some true))
    ∧ worker_job (some (3, 5)) (fun _ _ => RunOutcome.ok 9)
        = ([Event.dequeue (some (3, 5)), Event.lockAcquire 3, Event.runPipeline 3 5,
            Event.respond 3 9, Event.lockRelease 3], some false)
    ∧ dequeueCount (worker_go 10 true [some (3, 5)]).events = 0
    ∧ (worker_go 10 true [some (3, 5)]).queue = [some (3, 5)]
    ∧ (worker_go 10 true [some (3, 5)]).exited = true := by
  refine ⟨fun run => rfl, rfl, ?_, ?_, ?_⟩ <;> decide

/-- Claim C8: a successful fetch enqueues every returned pair at the back of
the FIFO queue, in exactly arrival order, none skipped or duplicated, and
raises nothing. -/
theorem claim_C8_enqueue_in_order (us : List (CtxId × Msg)) (q : List QItem) :
    polling_job (FetchResult.updates us) q
      = ⟨q ++ us.map some, us.map (fun u => Event.enqueue (some u)), false⟩ := by
  simp [polling_job, enqueue_all_spec]

end Chatsky
